import Mathlib

/-!
# Verification of the clinical-record pipeline specification

A shallow embedding of the parts of the repository needed by the frozen
claims: the clinical knowledge base (`src/core/knowledge_base.py`), the
temporal resolver (`src/extraction/temporal_resolver.py`), the timeline
builder's score-trend analysis (`src/processing/timeline_builder.py`), and
the learning subsystem (`src/learning/feedback_manager.py`,
`src/learning/pattern_matcher.py`).

Modelling conventions:
- Python `datetime` values are modelled as `Int` minutes on a linear time
  axis (in the concrete examples, minutes since 2024-11-01T00:00).  All
  datetime operations the source performs (adding `timedelta` days/hours,
  `replace(hour=h, minute=0, second=0, microsecond=0)`, comparison) are
  exact at minute granularity.
- Python `float` quantities (confidences, success rates, lab values) are
  modelled as `ℚ`; every arithmetic operation the source performs on them
  (+, *, /, min, abs, comparison) is exact on the values involved.
- Fallible Python code (expressions that can raise `TypeError` or
  `ZeroDivisionError`) is modelled with `Except String`.
- Python dicts used as records are modelled as structures with `Option`
  fields (a missing key is `none`; `d.get(k, v)` is `Option.getD`).
  Python dicts used as keyed stores are modelled as association lists in
  insertion order (Python dicts iterate in insertion order).
-/

namespace ClinicalPipeline

/-! ## String utilities mirroring Python primitives -/

/-- Python `needle in hay` on strings (substring containment), on char
lists: `n` is the needle, the explicit argument the haystack. -/
def containsSublist (n : List Char) : List Char → Bool
  | [] => n.isEmpty
  | c :: t => n.isPrefixOf (c :: t) || containsSublist n t

/-- Python `needle in hay` (substring test) on strings. -/
def strContains (hay needle : String) : Bool :=
  containsSublist needle.toList hay.toList

/-- Python `str.lower()` (ASCII lowering, `Char.toLower` per character).
`String.toLower` itself is not kernel-reducible, so the map is written on
the underlying character list. -/
def strLower (s : String) : String :=
  ⟨s.data.map Char.toLower⟩

/-- Split a character list at every separator character (a
kernel-computable `String.split`); empty pieces between adjacent
separators are kept, as in `String.split`. -/
def charSplit (p : Char → Bool) : List Char → List (List Char)
  | [] => [[]]
  | c :: t =>
    let r := charSplit p t
    if p c then [] :: r else (c :: r.headD []) :: r.tail

/-- Python `str.split()` with no argument: split on runs of whitespace,
discarding empty pieces. -/
def splitWs (s : String) : List String :=
  ((charSplit Char.isWhitespace s.data).map (fun l => (⟨l⟩ : String))).filter
    (fun p => p ≠ "")

/-- Members of `a` (after `List.dedup`, i.e. Python `set(a)`) that also
belong to `b`: the size of this list is `len(set(a) & set(b))`. -/
def interCount (a b : List String) : Nat :=
  (a.dedup.filter (fun t => b.contains t)).length

/-- Python `re.findall(r'\w+', text)`: maximal runs of word characters
(letters, digits, underscore). -/
def wordTokens (s : String) : List String :=
  ((charSplit (fun c => ¬ (c.isAlphanum ∨ c = '_')) s.data).map
    (fun l => (⟨l⟩ : String))).filter (fun p => p ≠ "")

/-- Numeric value of a digit run, as produced by a regex group `(\d+)`. -/
def natOfDigits (ds : List Char) : Nat :=
  ds.foldl (fun acc c => 10 * acc + (c.toNat - '0'.toNat)) 0

/-- One attempted match of `POD[#\s]*(\d+)` (case-insensitive) at the head
of the char list; `none` if the pattern does not match here. -/
def tryTagNum (c1 c2 : Char) (l : List Char) : Option Nat :=
  match l with
  | a :: b :: rest =>
    if a.toLower = c1 ∧ b.toLower = c2 then
      let rest2 := rest.dropWhile (fun c => c = '#' ∨ c.isWhitespace)
      let ds := rest2.takeWhile Char.isDigit
      if ds.isEmpty then none else some (natOfDigits ds)
    else none
  | _ => none

/-- `re.search(r'POD[#\s]*(\d+)', s, re.I)` needs a helper that also
consumes the leading letter `P`/`p`; scanning every start position from
the left mirrors `re.search`. -/
def tryPodAt (l : List Char) : Option Nat :=
  match l with
  | p :: rest => if p.toLower = 'p' then tryTagNum 'o' 'd' rest else none
  | [] => none

/-- Group 1 of `re.search(r'POD[#\s]*(\d+)', s, re.I)`, as a number. -/
def podParse (s : String) : Option Nat :=
  go s.toList
where
  go : List Char → Option Nat
    | [] => none
    | c :: t =>
      match tryPodAt (c :: t) with
      | some n => some n
      | none => go t

/-- Group 1 of `re.search(r'HD[#\s]*(\d+)', s, re.I)`, as a number. -/
def hdParse (s : String) : Option Nat :=
  go s.toList
where
  go : List Char → Option Nat
    | [] => none
    | c :: t =>
      match tryTagNum 'h' 'd' (c :: t) with
      | some n => some n
      | none => go t

/-- One attempted match of `(\d+)\s*word` (case-insensitive) at the head
of the char list: a nonempty digit run, optional whitespace, then the
literal `word`. -/
def tryNumWordAt (word : List Char) (l : List Char) : Option Nat :=
  let ds := l.takeWhile Char.isDigit
  if ds.isEmpty then none
  else
    let rest := (l.drop ds.length).dropWhile Char.isWhitespace
    if word.isPrefixOf (rest.map Char.toLower) then some (natOfDigits ds) else none

/-- Group 1 of `re.search(r'(\d+)\s*hour', s, re.I)`, as a number. -/
def hoursParse (s : String) : Option Nat :=
  go s.toList
where
  go : List Char → Option Nat
    | [] => none
    | c :: t =>
      match tryNumWordAt ['h', 'o', 'u', 'r'] (c :: t) with
      | some n => some n
      | none => go t

/-- Group 1 of `re.search(r'(\d+)\s*day', s, re.I)`, as a number. -/
def daysParse (s : String) : Option Nat :=
  go s.toList
where
  go : List Char → Option Nat
    | [] => none
    | c :: t =>
      match tryNumWordAt ['d', 'a', 'y'] (c :: t) with
      | some n => some n
      | none => go t

/-- Insert `x` into an ascending list, after any element `y` with
`le y x`. -/
def insertSorted (le : α → α → Bool) (x : α) : List α → List α
  | [] => [x]
  | y :: t => if le y x then y :: insertSorted le x t else x :: y :: t

/-- Stable ascending sort by a total `≤` test: Python
`sorted(l, key=...)`.  (A stable insertion sort; Python `sorted` is
stable, and any two stable sorts under the same total preorder agree.) -/
def sortBy (le : α → α → Bool) (l : List α) : List α :=
  l.foldl (fun acc x => insertSorted le x acc) []

/-- Midnight of the day containing minute `t`:
`dt.replace(hour=0, minute=0, second=0, microsecond=0)`. -/
def dayStart (t : Int) : Int :=
  1440 * (t.fdiv 1440)

/-! ## Data model -/

/-- Modelled from the spec: `src/core/data_models.py` is not in the
source tree (only its importers are).  The free-form `clinical_context`
dict of a `HybridClinicalFact`, restricted to the keys the embedded
operations read or write.  `ttype` stands for the Python key `'type'`
(a Lean keyword). -/
structure FactCtx where
  ttype : Option String := none
  raw_text : Option String := none
  resolved : Option Bool := none
  resolution_method : Option String := none
  original_extraction : Option String := none
  correction_applied : Option Bool := none
  correction_pattern : Option String := none
  surrounding_context : Option String := none
  deriving Repr, DecidableEq

/-- Modelled from the spec: `ClinicalConcept` of the absent
`src/core/data_models.py`.  The `clinical_implications` strings of
`normalize_lab_value` are static lookup text and are omitted; the claims
are about `severity`. -/
structure ClinicalConcept where
  concept_type : String
  name : String
  value : ℚ
  unit : Option String := none
  normal_range : Option (ℚ × ℚ) := none
  severity : String
  deriving Repr, DecidableEq

/-- Modelled from the spec: the `normalized value (numeric/string/
ClinicalConcept)` field of a `HybridClinicalFact` (spec section 3), read
by `timeline_builder.py` for scores and lab values. -/
inductive NormalizedValue where
  | num (v : ℚ)
  | str (s : String)
  | concept (c : ClinicalConcept)
  deriving Repr, DecidableEq

/-- Modelled from the spec: `HybridClinicalFact` of the absent
`src/core/data_models.py`, per spec section 3 and the attribute accesses
in the sources under `src/`.  The attribute `fact` (the extracted text)
keeps its source name. -/
structure Fact where
  fact : String
  fact_type : String
  source_doc : String := ""
  source_line : Nat := 0
  timestamp : Int
  absolute_timestamp : Option Int := none
  confidence : ℚ
  severity : Option String := none
  normalized_value : Option NormalizedValue := none
  requires_review : Bool := false
  clinical_context : FactCtx := {}
  correction_applied : Bool := false
  correction_source : Option String := none
  fact_id : String := ""
  deriving Repr, DecidableEq

/-- Modelled from the spec: `ClinicalDocument` of the absent
`src/core/data_models.py`, per spec sections 3 and 6.  Document types are
kept as strings; the resolver compares against `OPERATIVE_NOTE` and
`ADMISSION_NOTE`. -/
structure ClinicalDocument where
  name : String := ""
  doc_type : String
  timestamp : Int
  author : Option String := none
  specialty : Option String := none
  text : String := ""
  deriving Repr, DecidableEq

/-- An anchor-event dict as built by
`TemporalResolver.identify_anchor_events`; `atype` stands for the Python
key `'type'`. -/
structure Anchor where
  atype : String
  timestamp : Int
  description : String := ""
  document : Option ClinicalDocument := none
  specialty : Option String := none
  deriving Repr, DecidableEq

/-! ## Clinical knowledge base (`src/core/knowledge_base.py`) -/

/-- One entry of `ClinicalKnowledgeBase.lab_ranges`: the normal
`range` pair, `unit`, and critical thresholds.  The static
`implications` strings are omitted (unused by the claims). -/
structure LabRange where
  range_lo : ℚ
  range_hi : ℚ
  unit : String
  critical_low : ℚ
  critical_high : ℚ
  deriving Repr, DecidableEq

/-- `ClinicalKnowledgeBase.lab_ranges` from
`_initialize_lab_ranges` (source lines 42-135). -/
def labRanges : List (String × LabRange) :=
  [("sodium", ⟨135, 145, "mmol/L", 125, 155⟩),
   ("potassium", ⟨mkRat 7 2, 5, "mmol/L", mkRat 5 2, mkRat 13 2⟩),
   ("glucose", ⟨70, 110, "mg/dL", 40, 500⟩),
   ("hemoglobin", ⟨12, 16, "g/dL", 7, 20⟩),
   ("platelets", ⟨150, 400, "K/uL", 50, 1000⟩),
   ("inr", ⟨mkRat 4 5, mkRat 6 5, "", mkRat 1 2, 5⟩),
   ("wbc", ⟨mkRat 9 2, 11, "K/uL", 2, 30⟩),
   ("creatinine", ⟨mkRat 3 5, mkRat 6 5, "mg/dL", mkRat 3 10, 5⟩)]

/-- `ClinicalKnowledgeBase.normalize_lab_value` (source lines 285-343):
look up the lab, grade severity by the critical thresholds (inclusive)
and the normal range, and return a `ClinicalConcept`; unknown labs get
severity `UNKNOWN`. -/
def normalizeLabValue (lab_name : String) (value : ℚ) : ClinicalConcept :=
  match labRanges.lookup (strLower lab_name) with
  | some lab_info =>
    let severity :=
      if value ≤ lab_info.critical_low then "CRITICAL"
      else if value ≥ lab_info.critical_high then "CRITICAL"
      else if value < lab_info.range_lo then "LOW"
      else if value > lab_info.range_hi then "HIGH"
      else "NORMAL"
    { concept_type := "lab", name := lab_name, value := value,
      unit := some lab_info.unit,
      normal_range := some (lab_info.range_lo, lab_info.range_hi),
      severity := severity }
  | none =>
    { concept_type := "lab", name := lab_name, value := value,
      severity := "UNKNOWN" }

/-- Result dict of `ClinicalKnowledgeBase.interpret_lab_trend`; the
`insufficient_data` early return carries only `trend`, hence the
`Option` fields. -/
structure TrendResult where
  trend : String
  clinical_significance : Option String := none
  first_value : Option ℚ := none
  last_value : Option ℚ := none
  change_percent : Option ℚ := none
  deriving Repr, DecidableEq

/-- `ClinicalKnowledgeBase.interpret_lab_trend` (source lines 477-527).
`values` are (date, value) pairs; Python sorts them by date (stably) and
divides by the chronologically first value in the stable-test without a
zero guard — that division is modelled by the explicit
`ZeroDivisionError` branch.  The `change_percent` division IS guarded in
the source (`if first_val != 0 else 0`). -/
def interpretLabTrend (lab_name : String) (values : List (Int × ℚ)) :
    Except String TrendResult :=
  if values.length < 2 then .ok { trend := "insufficient_data" }
  else
    let sorted_values := sortBy (fun a b => a.1 ≤ b.1) values
    let first_val := (sorted_values.headD (0, 0)).2
    let last_val := (sorted_values.getLastD (0, 0)).2
    if first_val = 0 then .error "ZeroDivisionError: float division by zero"
    else
      let trend :=
        if |last_val - first_val| / first_val < 1/10 then "stable"
        else if last_val > first_val then "increasing"
        else "decreasing"
      let clinical_significance :=
        match labRanges.lookup (strLower lab_name) with
        | some lab_info =>
          let first_status :=
            if lab_info.range_lo ≤ first_val ∧ first_val ≤ lab_info.range_hi
            then "normal" else "abnormal"
          let last_status :=
            if lab_info.range_lo ≤ last_val ∧ last_val ≤ lab_info.range_hi
            then "normal" else "abnormal"
          if first_status = "abnormal" ∧ last_status = "normal" then
            "improving_to_normal"
          else if first_status = "normal" ∧ last_status = "abnormal" then
            "worsening_from_normal"
          else trend
        | none => trend
      .ok { trend := trend,
            clinical_significance := some clinical_significance,
            first_value := some first_val,
            last_value := some last_val,
            change_percent :=
              some (if first_val ≠ 0
                    then |(last_val - first_val) / first_val * 100| else 0) }

/-! ## Timeline builder score trends (`src/processing/timeline_builder.py`) -/

/-- `TimelineBuilder._analyze_score_trend` (source lines 240-292),
specialised to numeric score values (the source reads `v['value']` from
each dict and its string-to-int coercion is the identity on numbers,
which is what clinical score series contain). -/
def analyzeScoreTrend (score_name : String) (values : List Int) : String :=
  if values.length < 2 then "insufficient_data"
  else
    let first_val := values.headD 0
    let last_val := values.getLastD 0
    if |last_val - first_val| ≤ 1 then "stable"
    else if score_name = "NIHSS" ∨ score_name = "mRS" then
      if last_val < first_val then "improving" else "worsening"
    else if score_name = "GCS" then
      if last_val > first_val then "improving" else "worsening"
    else if last_val > first_val then "increasing" else "decreasing"

/-! ## Temporal resolver (`src/extraction/temporal_resolver.py`) -/

/-- `TemporalResolver.identify_anchor_events` (source lines 50-96): one
`surgery` anchor per operative note, one `admission` anchor per admission
note, sorted by timestamp. -/
def identifyAnchorEvents (documents : List ClinicalDocument) : List Anchor :=
  let anchors := documents.filterMap (fun doc =>
    if doc.doc_type = "operative_note" then
      some { atype := "surgery", timestamp := doc.timestamp,
             description := "Surgical procedure", document := some doc,
             specialty := doc.specialty }
    else if doc.doc_type = "admission_note" then
      some { atype := "admission", timestamp := doc.timestamp,
             description := "Hospital admission", document := some doc,
             specialty := doc.specialty }
    else none)
  sortBy (fun a b => a.timestamp ≤ b.timestamp) anchors

/-- `TemporalResolver._resolve_single_reference` (source lines 153-295):
compute the resolved timestamp for one temporal-reference fact; every
fall-through path returns the fact's own timestamp (the source's final
`return fact.timestamp`).  The `documents` parameter is accepted and
unused, exactly as in the source. -/
def resolveSingleReference (fact : Fact) (anchors : List Anchor)
    (_documents : List ClinicalDocument) : Int :=
  let context := fact.clinical_context
  let temp_type := (context.ttype.getD "")
  let raw_text := (context.raw_text.getD "")
  if temp_type = "post_operative_day" then
    match podParse raw_text with
    | some pod_num =>
      if anchors.isEmpty then fact.timestamp
      else
        let surgery_anchors := anchors.filter
          (fun a => a.atype = "surgery" && a.timestamp ≤ fact.timestamp)
        match surgery_anchors.getLast? with
        | some a => a.timestamp + 1440 * pod_num
        | none => fact.timestamp
    | none => fact.timestamp
  else if temp_type = "hospital_day" then
    match hdParse raw_text with
    | some hd_num =>
      if anchors.isEmpty then fact.timestamp
      else
        let admission_anchors := anchors.filter (fun a => a.atype = "admission")
        match admission_anchors.head? with
        | some a => a.timestamp + 1440 * ((hd_num : Int) - 1)
        | none => fact.timestamp
    | none => fact.timestamp
  else if temp_type = "hours_after" then
    match hoursParse raw_text with
    | some hours => fact.timestamp + 60 * hours
    | none => fact.timestamp
  else if temp_type = "days_after" then
    match daysParse raw_text with
    | some days => fact.timestamp + 1440 * days
    | none => fact.timestamp
  else if temp_type = "previous_day" then fact.timestamp - 1440
  else if temp_type = "next_morning" then dayStart (fact.timestamp + 1440) + 8 * 60
  else if temp_type = "same_day" then dayStart fact.timestamp
  else if temp_type = "same_evening" then dayStart fact.timestamp + 18 * 60
  else if temp_type = "next_day" then fact.timestamp + 1440
  else fact.timestamp

/-- `TemporalResolver._get_resolution_method` (source lines 297-316). -/
def getResolutionMethod (fact : Fact) : String :=
  let temp_type := fact.clinical_context.ttype.getD "unknown"
  if temp_type = "post_operative_day" then "POD_anchor_based"
  else if temp_type = "hospital_day" then "HD_anchor_based"
  else if temp_type = "hours_after" then "relative_hours"
  else if temp_type = "days_after" then "relative_days"
  else if temp_type = "previous_day" then "relative_previous"
  else if temp_type = "next_morning" then "relative_next_morning"
  else if temp_type = "same_day" then "same_day_normalization"
  else if temp_type = "next_day" then "relative_next_day"
  else "unresolved"

/-- The per-fact body of `TemporalResolver.resolve_temporal_references`
(source lines 125-151): resolution counts as a success exactly when the
computed time differs from the fact's own timestamp; on success the fact
gets the absolute timestamp, a confidence boost of 0.15 capped at 0.95,
and `resolved`/`resolution_method` context entries; on failure only
`resolved = False` is recorded.  The embedding is total, so the source's
`except` branch (which records `resolution_error`) is unreachable. -/
def resolveOneFact (fact : Fact) (anchors : List Anchor)
    (documents : List ClinicalDocument) : Fact :=
  if fact.fact_type = "temporal_reference" then
    let resolved_time := resolveSingleReference fact anchors documents
    if resolved_time ≠ fact.timestamp then
      { fact with
        absolute_timestamp := some resolved_time,
        confidence := min (19/20) (fact.confidence + 3/20),
        clinical_context :=
          { fact.clinical_context with
            resolved := some true,
            resolution_method := some (getResolutionMethod fact) } }
    else
      { fact with
        clinical_context := { fact.clinical_context with resolved := some false } }
  else fact

/-- `TemporalResolver.resolve_temporal_references` (source lines
102-151): apply `resolveOneFact` to every fact, in order. -/
def resolveTemporalReferences (facts : List Fact) (anchors : List Anchor)
    (documents : List ClinicalDocument) : List Fact :=
  facts.map (fun fact => resolveOneFact fact anchors documents)

/-- One conflict dict of `TemporalResolver.detect_temporal_conflicts`;
the three conflict shapes carry different keys, hence `Option` fields. -/
structure TemporalConflict where
  ctype : String
  severity : String
  description : String
  facts : Option (List String) := none
  admission_date : Option Int := none
  pod_references : Option (List String) := none
  hd_references : Option (List String) := none
  deriving Repr, DecidableEq

/-- The `TypeError` message of comparing `None < datetime` in Python. -/
def dtTypeErrorMsg : String :=
  "TypeError: unsupported comparison between NoneType and datetime"

/-- Python `f.absolute_timestamp < admission_date`: the left side is
`Optional[datetime]` and a `None` raises `TypeError`. -/
def dtLtOpt (t : Option Int) (d : Int) : Except String Bool :=
  match t with
  | none => .error dtTypeErrorMsg
  | some v => .ok (decide (v < d))

/-- Left-to-right effectful filter, mirroring a Python list comprehension
whose condition may raise. -/
def exFilter (p : Fact → Except String Bool) : List Fact → Except String (List Fact)
  | [] => .ok []
  | f :: t => do
    let b ← p f
    let rest ← exFilter p t
    pure (if b then f :: rest else rest)

/-- `TemporalResolver.detect_temporal_conflicts` (source lines 322-404).
The before-admission comprehension evaluates
`f.absolute_timestamp < admission_date` FIRST and `f.fact_type !=
'temporal_reference'` second (Python `and` order), so a fact with a null
absolute timestamp raises before the type test can skip it. -/
def detectTemporalConflicts (facts : List Fact) (anchors : List Anchor) :
    Except String (List TemporalConflict) := do
  let admission_anchors := anchors.filter (fun a => a.atype = "admission")
  let beforeAdmissionConflicts ←
    match admission_anchors.head? with
    | some aa => do
      let before_admission ← exFilter (fun f => do
        let lt ← dtLtOpt f.absolute_timestamp aa.timestamp
        pure (lt && f.fact_type ≠ "temporal_reference")) facts
      pure (if before_admission.isEmpty then ([] : List TemporalConflict)
            else [{ ctype := "BEFORE_ADMISSION", severity := "HIGH",
                    description := toString before_admission.length ++
                      " facts dated before admission",
                    facts := some (before_admission.map (fun f => f.fact_id)),
                    admission_date := some aa.timestamp }])
    | none => pure []
  let pod_facts := facts.filter (fun f =>
    f.fact_type = "temporal_reference" &&
    f.clinical_context.ttype = some "post_operative_day")
  let surgery_anchors := anchors.filter (fun a => a.atype = "surgery")
  let podConflicts :=
    if ¬ pod_facts.isEmpty ∧ surgery_anchors.isEmpty then
      [{ ctype := "POD_WITHOUT_SURGERY", severity := "HIGH",
         description := "POD references found but no operative note/surgery date available",
         pod_references :=
           some (pod_facts.map (fun f => f.clinical_context.raw_text.getD "")) }]
    else ([] : List TemporalConflict)
  let hd_facts := facts.filter (fun f =>
    f.fact_type = "temporal_reference" &&
    f.clinical_context.ttype = some "hospital_day")
  let hdConflicts :=
    if ¬ hd_facts.isEmpty ∧ admission_anchors.isEmpty then
      [{ ctype := "HD_WITHOUT_ADMISSION", severity := "HIGH",
         description := "HD references found but no admission note/admission date available",
         hd_references :=
           some (hd_facts.map (fun f => f.clinical_context.raw_text.getD "")) }]
    else ([] : List TemporalConflict)
  pure (beforeAdmissionConflicts ++ podConflicts ++ hdConflicts)

/-! ## Learning subsystem (`src/learning/feedback_manager.py`,
`src/learning/pattern_matcher.py`) -/

/-- Modelled from the spec: the free-form `context` dict of a
`LearningFeedback` pattern (`src/core/data_models.py` is absent),
restricted to the keys the embedded operations read or write.
`context.get('approved', False)` is `approved.getD false`. -/
structure PatternCtx where
  fact_type : Option String := none
  approved : Option Bool := none
  approved_by : Option String := none
  approved_at : Option String := none
  rejected : Option Bool := none
  rejected_by : Option String := none
  rejected_at : Option String := none
  rejection_reason : Option String := none
  source_doc : Option String := none
  surrounding_context : Option String := none
  deriving Repr, DecidableEq

/-- Modelled from the spec: `LearningFeedback` of the absent
`src/core/data_models.py`, per spec section 3 (approval state lives in
`context`; `success_rate` is EMA-seeded at 1.0; `applied_count` counts
applications) and the attribute accesses in `feedback_manager.py`. -/
structure LearningFeedback where
  uncertainty_id : String := ""
  original_extraction : String
  correction : String
  context : PatternCtx
  pattern_hash : String := ""
  created_by : Option String := none
  success_rate : ℚ := 1
  applied_count : Nat := 0
  deriving Repr, DecidableEq

/-- The mutable state of a `FeedbackManager`: the pattern store
`feedback_database` (a dict in insertion order) and the
`application_stats` counters (a `defaultdict(int)`). -/
structure FeedbackManager where
  feedback_database : List (String × LearningFeedback) := []
  application_stats : List (String × Nat) := []
  deriving Repr, DecidableEq

/-- `FeedbackManager.success_threshold` (source line 53): 0.7, written
in the kernel-normal form `mkRat 7 10`. -/
def success_threshold : ℚ := mkRat 7 10

/-- `FeedbackManager._is_similar_context` (source lines 294-335): same
fact type, then exact substring (pattern original inside the fact text,
lowercased), else token overlap `|set(orig) ∩ set(fact)| / |set(orig)|`
at least 0.70. -/
def isSimilarContext (fact : Fact) (feedback : LearningFeedback) : Bool :=
  if some fact.fact_type ≠ feedback.context.fact_type then false
  else if strContains (strLower fact.fact) (strLower feedback.original_extraction) then true
  else
    let original_tokens := (splitWs (strLower feedback.original_extraction)).dedup
    let fact_tokens := splitWs (strLower fact.fact)
    if original_tokens.isEmpty then false
    else
      decide ((interCount original_tokens fact_tokens : ℚ) /
        (original_tokens.length : ℚ) ≥ mkRat 7 10)

/-- The dict `_find_matching_approved_correction` returns on success. -/
structure Correction where
  pattern_id : String
  corrected_text : String
  success_rate : ℚ
  deriving Repr, DecidableEq

/-- `FeedbackManager._find_matching_approved_correction` (source lines
256-292): scan the store in insertion order; skip any pattern whose
context `approved` flag is not truthy; on a context match, return the
correction only when `success_rate >= success_threshold`, otherwise keep
scanning (the source logs a warning and continues the loop). -/
def findMatchingApprovedCorrection
    (feedback_database : List (String × LearningFeedback)) (fact : Fact) :
    Option Correction :=
  match feedback_database with
  | [] => none
  | (pattern_id, feedback) :: rest =>
    if feedback.context.approved.getD false then
      if isSimilarContext fact feedback then
        if feedback.success_rate ≥ success_threshold then
          some { pattern_id := pattern_id, corrected_text := feedback.correction,
                 success_rate := feedback.success_rate }
        else findMatchingApprovedCorrection rest fact
      else findMatchingApprovedCorrection rest fact
    else findMatchingApprovedCorrection rest fact

/-- Increment `applied_count` of the entry keyed `pattern_id`, if present
(`if correction['pattern_id'] in self.feedback_database`). -/
def bumpAppliedCount (db : List (String × LearningFeedback)) (pattern_id : String) :
    List (String × LearningFeedback) :=
  match db with
  | [] => []
  | (k, fb) :: rest =>
    if k = pattern_id then (k, { fb with applied_count := fb.applied_count + 1 }) :: rest
    else (k, fb) :: bumpAppliedCount rest pattern_id

/-- `self.application_stats[pid] += 1` on a `defaultdict(int)`. -/
def bumpStat (stats : List (String × Nat)) (pattern_id : String) :
    List (String × Nat) :=
  match stats with
  | [] => [(pattern_id, 1)]
  | (k, n) :: rest =>
    if k = pattern_id then (k, n + 1) :: rest
    else (k, n) :: bumpStat rest pattern_id

/-- The mutation `apply_corrections` performs on one matched fact (source
lines 223-247): replace the text, scale the confidence by the pattern's
success rate, set the correction-provenance fields, and record the
original text in the context. -/
def applyCorrectionToFact (fact : Fact) (correction : Correction) : Fact :=
  { fact with
    fact := correction.corrected_text,
    confidence := fact.confidence * correction.success_rate,
    correction_applied := true,
    correction_source := some correction.pattern_id,
    clinical_context :=
      { fact.clinical_context with
        original_extraction := some fact.fact,
        correction_applied := some true,
        correction_pattern := some correction.pattern_id } }

/-- `FeedbackManager.apply_corrections` (source lines 198-254): for each
fact in order, look up a matching approved correction; apply it and bump
the application counters when found, otherwise pass the fact through
unchanged.  Returns the updated manager state and the fact list. -/
def applyCorrections (fm : FeedbackManager) (facts : List Fact) :
    FeedbackManager × List Fact :=
  match facts with
  | [] => (fm, [])
  | fact :: rest =>
    match findMatchingApprovedCorrection fm.feedback_database fact with
    | none =>
      let (fm2, out) := applyCorrections fm rest
      (fm2, fact :: out)
    | some correction =>
      let fact2 := applyCorrectionToFact fact correction
      let fm1 : FeedbackManager :=
        { feedback_database := bumpAppliedCount fm.feedback_database correction.pattern_id,
          application_stats := bumpStat fm.application_stats correction.pattern_id }
      let (fm2, out) := applyCorrections fm1 rest
      (fm2, fact2 :: out)

/-- Update the first entry keyed `pattern_hash` (dict keys are unique, so
this is the dict write `self.feedback_database[h] = ...`). -/
def updateEntry (db : List (String × LearningFeedback)) (pattern_hash : String)
    (f : LearningFeedback → LearningFeedback) : List (String × LearningFeedback) :=
  match db with
  | [] => []
  | (k, fb) :: rest =>
    if k = pattern_hash then (k, f fb) :: rest
    else (k, fb) :: updateEntry rest pattern_hash f

/-- `FeedbackManager.approve_pattern` (source lines 123-158): if the
pattern exists, set `approved = True` with actor and time in its context
and return `True`; otherwise return `False`.  The wall-clock string
`datetime.now().isoformat()` is passed in as `now`. -/
def approvePattern (fm : FeedbackManager) (pattern_hash approved_by now : String) :
    FeedbackManager × Bool :=
  match fm.feedback_database.lookup pattern_hash with
  | none => (fm, false)
  | some _ =>
    ({ fm with feedback_database :=
        updateEntry fm.feedback_database pattern_hash (fun fb =>
          { fb with context :=
              { fb.context with
                  approved := some true,
                  approved_by := some approved_by,
                  approved_at := some now } }) }, true)

/-- `FeedbackManager.reject_pattern` (source lines 160-192): if the
pattern exists, set `approved = False`, `rejected = True` with actor,
time and reason and return `True`; otherwise return `False`. -/
def rejectPattern (fm : FeedbackManager) (pattern_hash rejected_by : String)
    (reason : Option String) (now : String) : FeedbackManager × Bool :=
  match fm.feedback_database.lookup pattern_hash with
  | none => (fm, false)
  | some _ =>
    ({ fm with feedback_database :=
        updateEntry fm.feedback_database pattern_hash (fun fb =>
          { fb with context :=
              { fb.context with
                  approved := some false,
                  rejected := some true,
                  rejected_by := some rejected_by,
                  rejected_at := some now,
                  rejection_reason := reason } }) }, true)

/-! ### Pattern matcher (`src/learning/pattern_matcher.py`) -/

/-- `PatternMatcher._calculate_token_similarity` (source lines 128-155):
Jaccard similarity of the `\w+` token sets. -/
def calculateTokenSimilarity (text1 text2 : String) : ℚ :=
  let tokens1 := (wordTokens (strLower text1)).dedup
  let tokens2 := (wordTokens (strLower text2)).dedup
  if tokens1.isEmpty ∨ tokens2.isEmpty then 0
  else
    let intersection := interCount tokens1 tokens2
    let union := (tokens1 ++ tokens2).dedup.length
    if union > 0 then (intersection : ℚ) / (union : ℚ) else 0

/-- `PatternMatcher._check_context_match` (source lines 176-213): source
document containment, else token similarity over 0.5 between the stored
and current surrounding context. -/
def checkContextMatch (fact : Fact) (pattern : LearningFeedback) : Bool :=
  let fact_source := strLower fact.source_doc
  let pattern_source := strLower (pattern.context.source_doc.getD "")
  if pattern_source ≠ "" ∧ strContains fact_source pattern_source then true
  else
    let fact_context := fact.clinical_context.surrounding_context.getD ""
    let pattern_context := pattern.context.surrounding_context.getD ""
    if fact_context ≠ "" ∧ pattern_context ≠ "" then
      decide (calculateTokenSimilarity fact_context pattern_context > 1/2)
    else false

/-- `PatternMatcher.calculate_match_confidence` (source lines 76-126):
type mismatch gives 0; exact substring in either direction gives 1.0;
otherwise `min 1 (max jaccard fuzzy + context bonus)` with a 0.10 bonus.
The character fuzzy score `difflib.SequenceMatcher(None, a, b).ratio()`
is Python-library code, not repository code, and is passed in as the
parameter `fz` (always in `[0, 1]`); on inputs where the substring branch
fires the result does not depend on `fz`. -/
def calculateMatchConfidence (fz : String → String → ℚ)
    (fact : Fact) (pattern : LearningFeedback) : ℚ :=
  if some fact.fact_type ≠ pattern.context.fact_type then 0
  else
    let fact_text := strLower fact.fact
    let pattern_text := strLower pattern.original_extraction
    if strContains fact_text pattern_text ∨ strContains pattern_text fact_text then 1
    else
      let token_score := calculateTokenSimilarity fact_text pattern_text
      let fuzzy_score := fz fact_text pattern_text
      let base_score := max token_score fuzzy_score
      let context_bonus : ℚ := if checkContextMatch fact pattern then 1/10 else 0
      min 1 (base_score + context_bonus)

/-! ## Helper lemmas -/

/-- A successful assoc-list lookup yields a stored value. -/
lemma lookup_mem_snd :
    ∀ (l : List (String × LabRange)) (s : String) (info : LabRange),
      l.lookup s = some info → info ∈ l.map Prod.snd := by
  intro l
  induction l with
  | nil => intro s info h; simp [List.lookup] at h
  | cons hd t ih =>
    intro s info h
    rw [List.lookup] at h
    by_cases hk : s = hd.1
    · simp [hk] at h
      simp [← h]
    · have : (s == hd.1) = false := beq_false_of_ne hk
      rw [this] at h
      simp only [List.map_cons, List.mem_cons]
      exact Or.inr (ih s info h)

/-- Every lab table entry has its critical thresholds strictly outside its
normal range. -/
lemma labRanges_wellformed :
    ∀ info ∈ labRanges.map Prod.snd,
      info.critical_low < info.range_lo ∧ info.range_lo ≤ info.range_hi ∧
        info.range_hi < info.critical_high := by
  decide

/-- A `getLast?` hit is a member of the list. -/
lemma mem_of_getLast?_eq {α : Type} {l : List α} {z : α}
    (h : l.getLast? = some z) : z ∈ l := by
  cases l with
  | nil => simp at h
  | cons a t =>
    rw [List.getLast?_eq_getLast_of_ne_nil (List.cons_ne_nil a t)] at h
    exact (Option.some_inj.mp h) ▸ List.getLast_mem _

/-- In a list sorted by timestamp, every member's timestamp is at most the
last element's. -/
lemma ts_le_getLast_of_sorted :
    ∀ {l : List Anchor},
      l.Pairwise (fun x y => x.timestamp ≤ y.timestamp) →
      ∀ {x : Anchor}, x ∈ l → ∀ {z : Anchor}, l.getLast? = some z →
      x.timestamp ≤ z.timestamp := by
  intro l
  induction l with
  | nil => intro _ x hx; simp at hx
  | cons a t ih =>
    intro hp x hx z hz
    obtain ⟨hhead, htail⟩ := List.pairwise_cons.mp hp
    cases t with
    | nil =>
      simp at hz hx
      rw [hx, hz]
    | cons b t2 =>
      rw [List.getLast?_cons_cons] at hz
      rcases List.mem_cons.mp hx with rfl | hxt
      · exact (hhead z (mem_of_getLast?_eq hz))
      · exact ih htail hxt hz

/-- In a sorted anchor list, a member whose timestamp dominates all
members is realised (in timestamp) by the last element. -/
lemma getLast_ts_eq_max {l : List Anchor}
    (hp : l.Pairwise (fun x y => x.timestamp ≤ y.timestamp))
    {x : Anchor} (hx : x ∈ l)
    (hmax : ∀ y ∈ l, y.timestamp ≤ x.timestamp) :
    ∃ z, l.getLast? = some z ∧ z.timestamp = x.timestamp := by
  have hne : l ≠ [] := List.ne_nil_of_mem hx
  obtain ⟨z, hz⟩ : ∃ z, l.getLast? = some z := by
    cases l with
    | nil => exact absurd rfl hne
    | cons a t => exact ⟨_, List.getLast?_eq_getLast_of_ne_nil (List.cons_ne_nil a t)⟩
  exact ⟨z, hz, le_antisymm (hmax z (mem_of_getLast?_eq hz))
    (ts_le_getLast_of_sorted hp hx hz)⟩

/-- In a sorted anchor list, a member whose timestamp is dominated by all
members is realised (in timestamp) by the head. -/
lemma head_ts_eq_min {l : List Anchor}
    (hp : l.Pairwise (fun x y => x.timestamp ≤ y.timestamp))
    {x : Anchor} (hx : x ∈ l)
    (hmin : ∀ y ∈ l, x.timestamp ≤ y.timestamp) :
    ∃ z, l.head? = some z ∧ z.timestamp = x.timestamp := by
  cases l with
  | nil => simp at hx
  | cons a t =>
    refine ⟨a, rfl, ?_⟩
    obtain ⟨hhead, _⟩ := List.pairwise_cons.mp hp
    rcases List.mem_cons.mp hx with rfl | hxt
    · rfl
    · exact le_antisymm (hhead x hxt) (hmin a (List.mem_cons_self a t))

/-- A successful single-fact resolution (the computed time differs from
the fact's own timestamp) records exactly the absolute timestamp, the
capped confidence boost, and the resolved/method context entries. -/
lemma resolveTemporal_single_success
    (fact : Fact) (anchors : List Anchor) (docs : List ClinicalDocument)
    (hft : fact.fact_type = "temporal_reference")
    (h : resolveSingleReference fact anchors docs ≠ fact.timestamp) :
    resolveTemporalReferences [fact] anchors docs =
      [{ fact with
          absolute_timestamp := some (resolveSingleReference fact anchors docs),
          confidence := min (19/20) (fact.confidence + 3/20),
          clinical_context :=
            { fact.clinical_context with
              resolved := some true,
              resolution_method := some (getResolutionMethod fact) } }] := by
  unfold resolveTemporalReferences resolveOneFact
  simp only [List.map, hft, if_pos, if_true, h, ite_not]
  simp

/-- A failed single-fact resolution (the computed time equals the fact's
own timestamp) records only `resolved = False`. -/
lemma resolveTemporal_single_failure
    (fact : Fact) (anchors : List Anchor) (docs : List ClinicalDocument)
    (hft : fact.fact_type = "temporal_reference")
    (h : resolveSingleReference fact anchors docs = fact.timestamp) :
    resolveTemporalReferences [fact] anchors docs =
      [{ fact with
          clinical_context :=
            { fact.clinical_context with resolved := some false } }] := by
  unfold resolveTemporalReferences resolveOneFact
  simp only [List.map]
  rw [if_pos hft, if_neg (by rw [h]; exact fun hne => hne rfl)]

/-- What a successful scan of the pattern store guarantees: the returned
correction comes from a stored pattern that is approved, context-similar,
and at or above the success threshold. -/
lemma findMatch_some_spec :
    ∀ (db : List (String × LearningFeedback)) (fact : Fact) (c : Correction),
      findMatchingApprovedCorrection db fact = some c →
      ∃ fb, (c.pattern_id, fb) ∈ db ∧
        fb.context.approved.getD false = true ∧
        isSimilarContext fact fb = true ∧
        fb.success_rate ≥ success_threshold ∧
        c.corrected_text = fb.correction ∧
        c.success_rate = fb.success_rate := by
  intro db
  induction db with
  | nil => intro fact c h; simp [findMatchingApprovedCorrection] at h
  | cons p rest ih =>
    intro fact c h
    obtain ⟨pid, fb⟩ := p
    unfold findMatchingApprovedCorrection at h
    split_ifs at h with h1 h2 h3
    · obtain rfl := Option.some_inj.mp h
      exact ⟨fb, List.mem_cons_self _ _, h1, h2, h3, rfl, rfl⟩
    all_goals
      obtain ⟨fb2, hmem, hrest⟩ := ih fact c h
      exact ⟨fb2, List.mem_cons_of_mem _ hmem, hrest⟩

/-- The scan returns nothing exactly when no stored pattern passes all
three gates (approved, similar, success rate at threshold). -/
lemma findMatch_eq_none_iff :
    ∀ (db : List (String × LearningFeedback)) (fact : Fact),
      findMatchingApprovedCorrection db fact = none ↔
        ∀ p ∈ db, ¬ (p.2.context.approved.getD false = true ∧
          isSimilarContext fact p.2 = true ∧
          p.2.success_rate ≥ success_threshold) := by
  intro db
  induction db with
  | nil => intro fact; simp [findMatchingApprovedCorrection]
  | cons p rest ih =>
    intro fact
    obtain ⟨pid, fb⟩ := p
    unfold findMatchingApprovedCorrection
    constructor
    · intro h
      by_cases h1 : fb.context.approved.getD false = true
      · rw [if_pos h1] at h
        by_cases h2 : isSimilarContext fact fb = true
        · rw [if_pos h2] at h
          by_cases h3 : fb.success_rate ≥ success_threshold
          · rw [if_pos h3] at h
            exact absurd h (by simp)
          · rw [if_neg h3] at h
            intro q hq
            rcases List.mem_cons.mp hq with rfl | hq2
            · exact fun hc => h3 hc.2.2
            · exact (ih fact).mp h q hq2
        · rw [if_neg h2] at h
          intro q hq
          rcases List.mem_cons.mp hq with rfl | hq2
          · exact fun hc => h2 hc.2.1
          · exact (ih fact).mp h q hq2
      · rw [if_neg h1] at h
        intro q hq
        rcases List.mem_cons.mp hq with rfl | hq2
        · exact fun hc => h1 hc.1
        · exact (ih fact).mp h q hq2
    · intro hall
      have hp := hall (pid, fb) (List.mem_cons_self _ _)
      have hrest : findMatchingApprovedCorrection rest fact = none :=
        (ih fact).mpr (fun q hq => hall q (List.mem_cons_of_mem _ hq))
      by_cases h1 : fb.context.approved.getD false = true
      · by_cases h2 : isSimilarContext fact fb = true
        · by_cases h3 : fb.success_rate ≥ success_threshold
          · exact absurd ⟨h1, h2, h3⟩ hp
          · rw [if_pos h1, if_pos h2, if_neg h3]
            exact hrest
        · rw [if_pos h1, if_neg h2]
          exact hrest
      · rw [if_neg h1]
        exact hrest

/-- `apply_corrections` on one fact with no matching correction: a no-op
on both the manager state and the fact. -/
lemma applyCorrections_single_none (fm : FeedbackManager) (fact : Fact)
    (h : findMatchingApprovedCorrection fm.feedback_database fact = none) :
    applyCorrections fm [fact] = (fm, [fact]) := by
  unfold applyCorrections
  rw [h]
  rfl

/-- `apply_corrections` on one fact with a matching correction: the fact
is rewritten and both application counters are bumped. -/
lemma applyCorrections_single_some (fm : FeedbackManager) (fact : Fact)
    (c : Correction)
    (h : findMatchingApprovedCorrection fm.feedback_database fact = some c) :
    applyCorrections fm [fact] =
      ({ feedback_database := bumpAppliedCount fm.feedback_database c.pattern_id,
         application_stats := bumpStat fm.application_stats c.pattern_id },
       [applyCorrectionToFact fact c]) := by
  unfold applyCorrections
  rw [h]
  rfl

/-- Updating the entry at a key rewrites exactly that key's lookup. -/
lemma lookup_updateEntry :
    ∀ (db : List (String × LearningFeedback)) (h : String)
      (f : LearningFeedback → LearningFeedback) {fb : LearningFeedback},
      db.lookup h = some fb → (updateEntry db h f).lookup h = some (f fb) := by
  intro db h f
  induction db with
  | nil => intro fb hl; simp [List.lookup] at hl
  | cons p rest ih =>
    intro fb hl
    obtain ⟨k, v⟩ := p
    by_cases hk : k = h
    · subst hk
      rw [List.lookup] at hl
      simp only [beq_self_eq_true] at hl
      unfold updateEntry
      rw [if_pos rfl, List.lookup]
      simp only [beq_self_eq_true]
      simp at hl
      rw [hl]
    · rw [List.lookup] at hl
      have hne : (h == k) = false := beq_false_of_ne (fun he => hk he.symm)
      rw [hne] at hl
      unfold updateEntry
      rw [if_neg hk, List.lookup, hne]
      exact ih hl

/-! ## Claim theorems -/

/-- C6: for every lab known to the knowledge base and every value,
`normalize_lab_value` grades CRITICAL exactly when the value is at or
beyond a critical threshold, LOW/HIGH when outside the normal range but
not critical, and NORMAL otherwise; sodium 120 is CRITICAL and sodium 140
is NORMAL. -/
theorem normalizeLabValue_severity_spec :
    ∀ (lab_name : String) (info : LabRange) (value : ℚ),
      labRanges.lookup (strLower lab_name) = some info →
      ((normalizeLabValue lab_name value).severity = "CRITICAL" ↔
        (value ≤ info.critical_low ∨ value ≥ info.critical_high)) ∧
      (¬ (value ≤ info.critical_low ∨ value ≥ info.critical_high) →
        (value < info.range_lo →
          (normalizeLabValue lab_name value).severity = "LOW") ∧
        (value > info.range_hi →
          (normalizeLabValue lab_name value).severity = "HIGH") ∧
        (info.range_lo ≤ value → value ≤ info.range_hi →
          (normalizeLabValue lab_name value).severity = "NORMAL")) ∧
      (normalizeLabValue "sodium" 120).severity = "CRITICAL" ∧
      (normalizeLabValue "sodium" 140).severity = "NORMAL" := by
  intro lab_name info value h
  have hwf := labRanges_wellformed info (lookup_mem_snd _ _ _ h)
  obtain ⟨hwf1, hwf2, hwf3⟩ := hwf
  have hsev : (normalizeLabValue lab_name value).severity =
      (if value ≤ info.critical_low then "CRITICAL"
       else if value ≥ info.critical_high then "CRITICAL"
       else if value < info.range_lo then "LOW"
       else if value > info.range_hi then "HIGH"
       else "NORMAL") := by
    unfold normalizeLabValue
    rw [h]
  refine ⟨?_, ?_, by decide, by decide⟩
  · rw [hsev]
    constructor
    · intro hc
      by_contra hnot
      push_neg at hnot
      obtain ⟨h1, h2⟩ := hnot
      rw [if_neg (not_le.mpr h1), if_neg (not_le.mpr h2)] at hc
      split_ifs at hc <;> simp_all
    · rintro (h1 | h2)
      · rw [if_pos h1]
      · rw [if_neg, if_pos h2]
        intro hle
        have := hwf1.trans_le hwf2
        have := this.trans hwf3
        linarith
  · intro hnc
    push_neg at hnc
    obtain ⟨h1, h2⟩ := hnc
    rw [hsev, if_neg (not_le.mpr h1), if_neg (not_le.mpr h2)]
    refine ⟨fun hlo => ?_, fun hhi => ?_, fun ha hb => ?_⟩
    · rw [if_pos hlo]
    · rw [if_neg (not_lt.mpr (hwf2.trans (le_of_lt hhi))), if_pos hhi]
    · rw [if_neg (not_lt.mpr ha), if_neg (not_lt.mpr hb)]

/-- C6 witness: sodium has table entry (135-145, critical 125/155) and at
value 120 the characterization yields severity CRITICAL. -/
theorem normalizeLabValue_severity_spec_witness :
    (normalizeLabValue "sodium" 120).severity = "CRITICAL" ∧
      (120 : ℚ) ≤ (125 : ℚ) :=
  ⟨((normalizeLabValue_severity_spec "sodium" ⟨135, 145, "mmol/L", 125, 155⟩ 120
      (by decide)).1).mpr (Or.inl (by norm_num)), by norm_num⟩

/-- C7: score-trend analysis returns `insufficient_data` below 2 points,
`stable` when the first-to-last change is within 1, direction-aware
improving/worsening for NIHSS, mRS (lower is better) and GCS (higher is
better), and the raw direction for every other score. -/
theorem analyzeScoreTrend_spec :
    ∀ (score_name : String) (values : List Int),
      (values.length < 2 →
        analyzeScoreTrend score_name values = "insufficient_data") ∧
      (2 ≤ values.length →
        (|values.getLastD 0 - values.headD 0| ≤ 1 →
          analyzeScoreTrend score_name values = "stable") ∧
        (1 < |values.getLastD 0 - values.headD 0| →
          ((score_name = "NIHSS" ∨ score_name = "mRS") →
            (values.getLastD 0 < values.headD 0 →
              analyzeScoreTrend score_name values = "improving") ∧
            (values.headD 0 < values.getLastD 0 →
              analyzeScoreTrend score_name values = "worsening")) ∧
          (score_name = "GCS" →
            (values.headD 0 < values.getLastD 0 →
              analyzeScoreTrend score_name values = "improving") ∧
            (values.getLastD 0 < values.headD 0 →
              analyzeScoreTrend score_name values = "worsening")) ∧
          (score_name ≠ "NIHSS" → score_name ≠ "mRS" → score_name ≠ "GCS" →
            (values.headD 0 < values.getLastD 0 →
              analyzeScoreTrend score_name values = "increasing") ∧
            (values.getLastD 0 < values.headD 0 →
              analyzeScoreTrend score_name values = "decreasing")))) := by
  intro score_name values
  constructor
  · intro hlen
    unfold analyzeScoreTrend
    rw [if_pos hlen]
  · intro hlen
    have h2 : ¬ values.length < 2 := by omega
    have hunf : analyzeScoreTrend score_name values =
        (if |values.getLastD 0 - values.headD 0| ≤ 1 then "stable"
         else if score_name = "NIHSS" ∨ score_name = "mRS" then
           if values.getLastD 0 < values.headD 0 then "improving" else "worsening"
         else if score_name = "GCS" then
           if values.headD 0 < values.getLastD 0 then "improving" else "worsening"
         else if values.headD 0 < values.getLastD 0 then "increasing"
         else "decreasing") := by
      unfold analyzeScoreTrend
      rw [if_neg h2]
    constructor
    · intro hst
      rw [hunf, if_pos hst]
    · intro hbig
      rw [hunf, if_neg (not_le.mpr hbig)]
      refine ⟨?_, ?_, ?_⟩
      · intro hname
        rw [if_pos hname]
        exact ⟨fun hd => by rw [if_pos hd], fun hd => by rw [if_neg (asymm hd)]⟩
      · intro hname
        have hnot : ¬ (score_name = "NIHSS" ∨ score_name = "mRS") := by
          rintro (hh | hh) <;> (rw [hname] at hh; exact absurd hh (by decide))
        rw [if_neg hnot, if_pos hname]
        exact ⟨fun hd => by rw [if_pos hd], fun hd => by rw [if_neg (asymm hd)]⟩
      · intro hn1 hn2 hn3
        have hnot : ¬ (score_name = "NIHSS" ∨ score_name = "mRS") := by
          rintro (hh | hh) <;> contradiction
        rw [if_neg hnot, if_neg hn3]
        exact ⟨fun hd => by rw [if_pos hd], fun hd => by rw [if_neg (asymm hd)]⟩

/-- C4: a POD#N temporal-reference fact resolves against the latest
surgery anchor at or before the fact's own timestamp, to that anchor's
timestamp plus N days (time-of-day preserved by day-granular addition);
when the computed time differs from the fact's own timestamp the full
resolution records it with a 0.15 confidence boost capped at 0.95 and
marks the context resolved; with no surgery anchor at or before the fact
the timestamp is left unchanged and the fact is unresolved. -/
theorem resolvePOD_spec :
    ∀ (fact : Fact) (anchors : List Anchor) (docs : List ClinicalDocument),
      fact.fact_type = "temporal_reference" →
      fact.clinical_context.ttype = some "post_operative_day" →
      ((∀ (n : Nat) (a : Anchor),
          podParse (fact.clinical_context.raw_text.getD "") = some n →
          anchors.Pairwise (fun x y => x.timestamp ≤ y.timestamp) →
          a ∈ anchors → a.atype = "surgery" → a.timestamp ≤ fact.timestamp →
          (∀ b ∈ anchors, b.atype = "surgery" → b.timestamp ≤ fact.timestamp →
            b.timestamp ≤ a.timestamp) →
          resolveSingleReference fact anchors docs = a.timestamp + 1440 * n ∧
          (a.timestamp + 1440 * n ≠ fact.timestamp →
            resolveTemporalReferences [fact] anchors docs =
              [{ fact with
                  absolute_timestamp := some (a.timestamp + 1440 * n),
                  confidence := min (19/20) (fact.confidence + 3/20),
                  clinical_context :=
                    { fact.clinical_context with
                      resolved := some true,
                      resolution_method := some "POD_anchor_based" } }])) ∧
       ((∀ b ∈ anchors, b.atype = "surgery" → ¬ b.timestamp ≤ fact.timestamp) →
          resolveSingleReference fact anchors docs = fact.timestamp ∧
          resolveTemporalReferences [fact] anchors docs =
            [{ fact with
                clinical_context :=
                  { fact.clinical_context with resolved := some false } }])) := by
  intro fact anchors docs hft htt
  have htt' : (fact.clinical_context.ttype.getD "") = "post_operative_day" := by
    rw [htt]; rfl
  have hmeth : getResolutionMethod fact = "POD_anchor_based" := by
    unfold getResolutionMethod
    rw [htt]
    rfl
  constructor
  · intro n a hparse hsort hmem hsurg hle hmax
    have hae : anchors.isEmpty = false := by
      simp [List.isEmpty_iff, List.ne_nil_of_mem hmem]
    have hamem : a ∈ anchors.filter
        (fun b => b.atype = "surgery" && b.timestamp ≤ fact.timestamp) := by
      rw [List.mem_filter]
      exact ⟨hmem, by simp [hsurg, hle]⟩
    have hsortf := hsort.filter
      (fun b => b.atype = "surgery" && b.timestamp ≤ fact.timestamp)
    have hmaxf : ∀ y ∈ anchors.filter
        (fun b => b.atype = "surgery" && b.timestamp ≤ fact.timestamp),
        y.timestamp ≤ a.timestamp := by
      intro y hy
      rw [List.mem_filter] at hy
      obtain ⟨hy1, hy2⟩ := hy
      simp only [Bool.and_eq_true, decide_eq_true_eq] at hy2
      exact hmax y hy1 hy2.1 hy2.2
    obtain ⟨z, hz, hzts⟩ := getLast_ts_eq_max hsortf hamem hmaxf
    have h1 : resolveSingleReference fact anchors docs = a.timestamp + 1440 * n := by
      unfold resolveSingleReference
      simp only [htt', if_true, eq_self_iff_true, hparse, hae, Bool.false_eq_true,
        if_false, hz, hzts]
    refine ⟨h1, fun hneq => ?_⟩
    rw [resolveTemporal_single_success fact anchors docs hft (by rw [h1]; exact hneq),
      h1, hmeth]
  · intro hnone
    have hfilt : anchors.filter
        (fun b => b.atype = "surgery" && b.timestamp ≤ fact.timestamp) = [] := by
      rw [List.filter_eq_nil_iff]
      intro b hb
      simp only [Bool.and_eq_true, decide_eq_true_eq, not_and]
      exact fun hs => hnone b hb hs
    have h1 : resolveSingleReference fact anchors docs = fact.timestamp := by
      unfold resolveSingleReference
      simp only [htt', if_true, eq_self_iff_true, hfilt]
      cases hpp : podParse (fact.clinical_context.raw_text.getD "") with
      | none => rfl
      | some n =>
        simp only []
        cases hae : anchors.isEmpty <;> simp
    exact ⟨h1, resolveTemporal_single_failure fact anchors docs hft h1⟩

/-- The POD#3 progress-note fact of the spec's example (document
timestamp 2024-11-05T04:00, confidence 0.80). -/
def podFact : Fact :=
  { fact := "POD#3 - patient stable", fact_type := "temporal_reference",
    timestamp := 6000, confidence := 4/5,
    clinical_context := { ttype := some "post_operative_day",
                          raw_text := some "POD#3" },
    fact_id := "f-pod3" }

/-- The spec example's anchors: admission 2024-11-01T08:00 (minute 480),
surgery 2024-11-02T14:00 (minute 2280). -/
def exampleAnchors : List Anchor :=
  [{ atype := "admission", timestamp := 480, description := "Hospital admission" },
   { atype := "surgery", timestamp := 2280, description := "Surgical procedure" }]

/-- C4 witness: with surgery anchor 2024-11-02T14:00, the POD#3 fact
resolves to minute 6600 = 2024-11-05T14:00 exactly, confidence
0.80 + 0.15 = 0.95, context resolved. -/
theorem resolvePOD_spec_witness :
    resolveSingleReference podFact exampleAnchors [] = 6600 ∧
      resolveTemporalReferences [podFact] exampleAnchors [] =
        [{ podFact with
            absolute_timestamp := some 6600,
            confidence := 19/20,
            clinical_context :=
              { podFact.clinical_context with
                resolved := some true,
                resolution_method := some "POD_anchor_based" } }] := by
  have h := (resolvePOD_spec podFact exampleAnchors [] rfl rfl).1 3
    { atype := "surgery", timestamp := 2280, description := "Surgical procedure" }
    (by decide) (by decide) (by decide) rfl (by decide) (by decide)
  have h2 := h.2 (by decide)
  refine ⟨h.1.trans (by decide), h2.trans ?_⟩
  have hc : min ((19:ℚ)/20) (podFact.confidence + 3/20) = 19/20 := by
    show min ((19:ℚ)/20) (4/5 + 3/20) = 19/20
    norm_num
  rw [hc]
  norm_num

/-- C5: an HD#N temporal-reference fact resolves against the first
(earliest) admission anchor, to its timestamp plus (N-1) days; HD#1 gives
the admission timestamp itself; with no admission anchor the fact is
unresolved and its timestamp unchanged. -/
theorem resolveHD_spec :
    ∀ (fact : Fact) (anchors : List Anchor) (docs : List ClinicalDocument),
      fact.fact_type = "temporal_reference" →
      fact.clinical_context.ttype = some "hospital_day" →
      ((∀ (n : Nat) (a : Anchor),
          hdParse (fact.clinical_context.raw_text.getD "") = some n →
          anchors.Pairwise (fun x y => x.timestamp ≤ y.timestamp) →
          a ∈ anchors → a.atype = "admission" →
          (∀ b ∈ anchors, b.atype = "admission" → a.timestamp ≤ b.timestamp) →
          resolveSingleReference fact anchors docs =
            a.timestamp + 1440 * ((n : Int) - 1) ∧
          (a.timestamp + 1440 * ((n : Int) - 1) ≠ fact.timestamp →
            resolveTemporalReferences [fact] anchors docs =
              [{ fact with
                  absolute_timestamp := some (a.timestamp + 1440 * ((n : Int) - 1)),
                  confidence := min (19/20) (fact.confidence + 3/20),
                  clinical_context :=
                    { fact.clinical_context with
                      resolved := some true,
                      resolution_method := some "HD_anchor_based" } }])) ∧
       ((∀ b ∈ anchors, b.atype ≠ "admission") →
          resolveSingleReference fact anchors docs = fact.timestamp ∧
          resolveTemporalReferences [fact] anchors docs =
            [{ fact with
                clinical_context :=
                  { fact.clinical_context with resolved := some false } }])) := by
  intro fact anchors docs hft htt
  have htt' : (fact.clinical_context.ttype.getD "") = "hospital_day" := by
    rw [htt]; rfl
  have hmeth : getResolutionMethod fact = "HD_anchor_based" := by
    unfold getResolutionMethod
    rw [htt]
    rfl
  constructor
  · intro n a hparse hsort hmem hadm hmin
    have hae : anchors.isEmpty = false := by
      simp [List.isEmpty_iff, List.ne_nil_of_mem hmem]
    have hamem : a ∈ anchors.filter (fun b => b.atype = "admission") := by
      rw [List.mem_filter]
      exact ⟨hmem, by simp [hadm]⟩
    have hsortf := hsort.filter (fun b => b.atype = "admission")
    have hminf : ∀ y ∈ anchors.filter (fun b => b.atype = "admission"),
        a.timestamp ≤ y.timestamp := by
      intro y hy
      rw [List.mem_filter] at hy
      obtain ⟨hy1, hy2⟩ := hy
      simp only [decide_eq_true_eq] at hy2
      exact hmin y hy1 hy2
    obtain ⟨z, hz, hzts⟩ := head_ts_eq_min hsortf hamem hminf
    have h1 : resolveSingleReference fact anchors docs =
        a.timestamp + 1440 * ((n : Int) - 1) := by
      unfold resolveSingleReference
      rw [if_neg (by rw [htt']; decide)]
      simp only [htt', if_true, eq_self_iff_true, hparse, hae, Bool.false_eq_true,
        if_false, hz, hzts]
    refine ⟨h1, fun hneq => ?_⟩
    rw [resolveTemporal_single_success fact anchors docs hft (by rw [h1]; exact hneq),
      h1, hmeth]
  · intro hnone
    have hfilt : anchors.filter (fun b => b.atype = "admission") = [] := by
      rw [List.filter_eq_nil_iff]
      intro b hb
      simp only [decide_eq_true_eq]
      exact hnone b hb
    have h1 : resolveSingleReference fact anchors docs = fact.timestamp := by
      unfold resolveSingleReference
      rw [if_neg (by rw [htt']; decide)]
      simp only [htt', if_true, eq_self_iff_true, hfilt]
      cases hpp : hdParse (fact.clinical_context.raw_text.getD "") with
      | none => rfl
      | some n =>
        simp only []
        cases hae : anchors.isEmpty <;> simp
    exact ⟨h1, resolveTemporal_single_failure fact anchors docs hft h1⟩

/-- An HD#1 fact from a progress note at 2024-11-03T09:00, confidence
0.80. -/
def hd1Fact : Fact :=
  { fact := "HD#1 admitted for observation", fact_type := "temporal_reference",
    timestamp := 3300, confidence := 4/5,
    clinical_context := { ttype := some "hospital_day",
                          raw_text := some "HD#1" },
    fact_id := "f-hd1" }

/-- C5 witness: HD#1 resolves to the admission anchor's exact timestamp
(minute 480 = 2024-11-01T08:00), and HD#4 arithmetic gives admission plus
3 days. -/
theorem resolveHD_spec_witness :
    resolveSingleReference hd1Fact exampleAnchors [] = 480 ∧
      resolveSingleReference
        { hd1Fact with
            clinical_context := { hd1Fact.clinical_context with
                                    raw_text := some "HD#4" } }
        exampleAnchors [] = 480 + 3 * 1440 := by
  constructor
  · have h := (resolveHD_spec hd1Fact exampleAnchors [] rfl rfl).1 1
      { atype := "admission", timestamp := 480, description := "Hospital admission" }
      (by decide) (by decide) (by decide) rfl (by decide)
    exact h.1.trans (by decide)
  · have h := (resolveHD_spec
      { hd1Fact with
          clinical_context := { hd1Fact.clinical_context with
                                  raw_text := some "HD#4" } }
      exampleAnchors [] rfl rfl).1 4
      { atype := "admission", timestamp := 480, description := "Hospital admission" }
      (by decide) (by decide) (by decide) rfl (by decide)
    exact h.1.trans (by decide)

/-- C1: a correction is only ever drawn from a pattern that is approved
with success rate at or above 0.70, and when every stored pattern is
unapproved (pending or rejected) or below threshold, `apply_corrections`
is a silent no-op on the fact and the manager state (the embedding is
total: no error is raised). -/
theorem applyCorrections_safety_gate :
    ∀ (fm : FeedbackManager) (fact : Fact),
      (∀ c, findMatchingApprovedCorrection fm.feedback_database fact = some c →
        ∃ fb, (c.pattern_id, fb) ∈ fm.feedback_database ∧
          fb.context.approved.getD false = true ∧
          fb.success_rate ≥ success_threshold) ∧
      ((∀ p ∈ fm.feedback_database,
          ¬ (p.2.context.approved.getD false = true ∧
             p.2.success_rate ≥ success_threshold)) →
        applyCorrections fm [fact] = (fm, [fact])) := by
  intro fm fact
  constructor
  · intro c h
    obtain ⟨fb, hmem, happ, _, hrate, _, _⟩ := findMatch_some_spec _ _ _ h
    exact ⟨fb, hmem, happ, hrate⟩
  · intro hall
    refine applyCorrections_single_none fm fact ((findMatch_eq_none_iff _ _).mpr ?_)
    intro p hp hc
    exact hall p hp ⟨hc.1, hc.2.2⟩

/-- A physician-corrected diagnosis fact used by the learning claims. -/
def hemorrhageFact : Fact :=
  { fact := "pt with hemorage on ct", fact_type := "diagnosis", timestamp := 0,
    confidence := mkRat 9 10, fact_id := "f-hem" }

/-- A still-pending correction pattern matching `hemorrhageFact`. -/
def pendingPattern : LearningFeedback :=
  { original_extraction := "pt with hemorage",
    correction := "patient with hemorrhage",
    context := { fact_type := some "diagnosis" },
    pattern_hash := "p-pending", success_rate := 1 }

/-- An approved correction pattern matching `hemorrhageFact` whose
success rate (0.5) has fallen below the 0.70 threshold. -/
def lowRatePattern : LearningFeedback :=
  { original_extraction := "pt with hemorage",
    correction := "patient with hemorrhage",
    context := { fact_type := some "diagnosis", approved := some true },
    pattern_hash := "p-low", success_rate := mkRat 1 2 }

/-- A store holding only a pending and a sub-threshold pattern: neither
may be applied. -/
def gatedFm : FeedbackManager :=
  { feedback_database := [("p-pending", pendingPattern), ("p-low", lowRatePattern)] }

/-- C1 witness: against a store with one pending and one sub-threshold
pattern, both of which would match the fact, the call is a no-op. -/
theorem applyCorrections_safety_gate_witness :
    applyCorrections gatedFm [hemorrhageFact] = (gatedFm, [hemorrhageFact]) :=
  (applyCorrections_safety_gate gatedFm hemorrhageFact).2 (by decide)

/-- C2 (amended): `apply_corrections` applies a stored pattern exactly
when `_is_similar_context` holds (same fact type, then the pattern's
original text as a lowercase substring of the fact, else token overlap
over the pattern's own tokens at least 0.70) together with approval and
success rate at least 0.70; on application it replaces the text,
multiplies confidence by the success rate, preserves the original text in
the context, and bumps the pattern's application count and the manager's
application stats. -/
theorem applyCorrections_characterization :
    ∀ (fm : FeedbackManager) (fact : Fact),
      (∀ c, findMatchingApprovedCorrection fm.feedback_database fact = some c →
        (∃ fb, (c.pattern_id, fb) ∈ fm.feedback_database ∧
          fb.context.approved.getD false = true ∧
          isSimilarContext fact fb = true ∧
          fb.success_rate ≥ success_threshold ∧
          c.corrected_text = fb.correction ∧
          c.success_rate = fb.success_rate) ∧
        applyCorrections fm [fact] =
          ({ feedback_database :=
               bumpAppliedCount fm.feedback_database c.pattern_id,
             application_stats := bumpStat fm.application_stats c.pattern_id },
           [{ fact with
               fact := c.corrected_text,
               confidence := fact.confidence * c.success_rate,
               correction_applied := true,
               correction_source := some c.pattern_id,
               clinical_context :=
                 { fact.clinical_context with
                   original_extraction := some fact.fact,
                   correction_applied := some true,
                   correction_pattern := some c.pattern_id } }])) ∧
      (findMatchingApprovedCorrection fm.feedback_database fact = none →
        applyCorrections fm [fact] = (fm, [fact]) ∧
        ∀ p ∈ fm.feedback_database,
          ¬ (p.2.context.approved.getD false = true ∧
             isSimilarContext fact p.2 = true ∧
             p.2.success_rate ≥ success_threshold)) := by
  intro fm fact
  constructor
  · intro c h
    exact ⟨findMatch_some_spec _ _ _ h, applyCorrections_single_some fm fact c h⟩
  · intro h
    exact ⟨applyCorrections_single_none fm fact h, (findMatch_eq_none_iff _ _).mp h⟩

/-- The approved, full-rate pattern store of the C2 witness. -/
def approvedPattern : LearningFeedback :=
  { original_extraction := "pt with hemorage",
    correction := "patient with hemorrhage",
    context := { fact_type := some "diagnosis", approved := some true },
    pattern_hash := "p-apply", success_rate := 1 }

/-- A manager holding only `approvedPattern`. -/
def approvedFm : FeedbackManager :=
  { feedback_database := [("p-apply", approvedPattern)] }

/-- C2 witness: the approved full-rate pattern matches `hemorrhageFact`
by exact substring and is applied with all four documented effects. -/
theorem applyCorrections_characterization_witness :
    findMatchingApprovedCorrection approvedFm.feedback_database hemorrhageFact =
        some { pattern_id := "p-apply",
               corrected_text := "patient with hemorrhage", success_rate := 1 } ∧
      applyCorrections approvedFm [hemorrhageFact] =
        ({ feedback_database :=
             [("p-apply", { approvedPattern with applied_count := 1 })],
           application_stats := [("p-apply", 1)] },
         [{ hemorrhageFact with
             fact := "patient with hemorrhage",
             confidence := mkRat 9 10,
             correction_applied := true,
             correction_source := some "p-apply",
             clinical_context :=
               { hemorrhageFact.clinical_context with
                 original_extraction := some "pt with hemorage on ct",
                 correction_applied := some true,
                 correction_pattern := some "p-apply" } }]) := by
  have hfind : findMatchingApprovedCorrection approvedFm.feedback_database
      hemorrhageFact =
      some { pattern_id := "p-apply",
             corrected_text := "patient with hemorrhage", success_rate := 1 } := by
    decide
  have h := ((applyCorrections_characterization approvedFm hemorrhageFact).1 _ hfind).2
  refine ⟨hfind, h.trans ?_⟩
  have hc : hemorrhageFact.confidence * (1 : ℚ) = mkRat 9 10 := by
    show mkRat 9 10 * 1 = mkRat 9 10
    exact mul_one _
  rw [hc]
  decide

/-- The fact of the C2 counterexample: its text is a strict substring of
the pattern's original extraction, so the spec's match-confidence formula
gives 1.0 (substring in either direction) while the code's
`_is_similar_context` (substring in one direction, token overlap 1/3)
rejects it. -/
def subdualFact : Fact :=
  { fact := "subdural", fact_type := "diagnosis", timestamp := 0,
    confidence := 9/10, fact_id := "f-subd" }

/-- The approved full-rate pattern of the C2 counterexample. -/
def subdualPattern : LearningFeedback :=
  { original_extraction := "subdural hematoma evacuation",
    correction := "subdural hematoma evacuation performed",
    context := { fact_type := some "diagnosis", approved := some true },
    pattern_hash := "p-subd", success_rate := 1 }

/-- A manager holding only `subdualPattern`. -/
def subdualFm : FeedbackManager :=
  { feedback_database := [("p-subd", subdualPattern)] }

/-- C2 counterexample: on `subdualFact` the spec's match-confidence
formula (from `calculate_match_confidence`) is exactly 1.0 and the
pattern is approved at full success rate, yet `apply_corrections` leaves
the fact (and the manager) unchanged — the claim's "applies exactly when
the spec-defined match confidence is at least 0.70" is false of the code.
The fuzzy-ratio parameter is irrelevant here: the substring branch
returns before it is consulted. -/
theorem applyCorrections_formula_counterexample :
    calculateMatchConfidence (fun _ _ => 0) subdualFact subdualPattern = 1 ∧
      subdualPattern.context.approved.getD false = true ∧
      subdualPattern.success_rate ≥ success_threshold ∧
      applyCorrections subdualFm [subdualFact] = (subdualFm, [subdualFact]) := by
  refine ⟨?_, by decide, by decide, ?_⟩
  · unfold calculateMatchConfidence
    rw [if_neg (by decide :
      ¬ (some subdualFact.fact_type ≠ subdualPattern.context.fact_type))]
    rw [if_pos (Or.inr (by decide))]
  · have hsim : isSimilarContext subdualFact subdualPattern = false := by
      simp only [isSimilarContext]
      rw [if_neg (by decide :
        ¬ (some subdualFact.fact_type ≠ subdualPattern.context.fact_type))]
      rw [if_neg (by decide : ¬ (strContains (strLower subdualFact.fact)
        (strLower subdualPattern.original_extraction) = true))]
      rw [if_neg (by decide :
        ¬ ((splitWs (strLower subdualPattern.original_extraction)).dedup.isEmpty
          = true))]
      rw [show interCount
            (splitWs (strLower subdualPattern.original_extraction)).dedup
            (splitWs (strLower subdualFact.fact)) = 1 from by decide]
      rw [show (splitWs (strLower subdualPattern.original_extraction)).dedup.length
            = 3 from by decide]
      refine decide_eq_false ?_
      rw [Rat.mkRat_eq_divInt, Rat.divInt_eq_div]
      push_cast
      norm_num
    have hfind : findMatchingApprovedCorrection subdualFm.feedback_database
        subdualFact = none := by
      show findMatchingApprovedCorrection [("p-subd", subdualPattern)]
        subdualFact = none
      unfold findMatchingApprovedCorrection
      rw [if_pos (by decide), if_neg (by simp [hsim])]
      rfl
    exact applyCorrections_single_none subdualFm subdualFact hfind

/-- C3 (amended): `approve_pattern` and `reject_pattern` overwrite the
approval flags unconditionally whenever the pattern exists, and return
`False` (leaving the store unchanged) otherwise: after an approve the
pattern's context has `approved = True` with the prior `rejected` flag
untouched, after a reject it has `approved = False` and
`rejected = True`; neither outcome is terminal. -/
theorem approveRejectPattern_flag_semantics :
    ∀ (fm : FeedbackManager) (h u now : String) (reason : Option String)
      (fb : LearningFeedback),
      fm.feedback_database.lookup h = some fb →
      (approvePattern fm h u now).1.feedback_database.lookup h =
          some { fb with context := { fb.context with
                   approved := some true,
                   approved_by := some u,
                   approved_at := some now } } ∧
        (approvePattern fm h u now).2 = true ∧
        (rejectPattern fm h u reason now).1.feedback_database.lookup h =
          some { fb with context := { fb.context with
                   approved := some false,
                   rejected := some true,
                   rejected_by := some u,
                   rejected_at := some now,
                   rejection_reason := reason } } ∧
        (rejectPattern fm h u reason now).2 = true := by
  intro fm h u now reason fb hl
  refine ⟨?_, ?_, ?_, ?_⟩
  · unfold approvePattern
    rw [hl]
    exact lookup_updateEntry fm.feedback_database h _ hl
  · unfold approvePattern
    rw [hl]
  · unfold rejectPattern
    rw [hl]
    exact lookup_updateEntry fm.feedback_database h _ hl
  · unfold rejectPattern
    rw [hl]

/-- A freshly submitted (pending) pattern store for the C3 scenario. -/
def pendingFm : FeedbackManager :=
  { feedback_database := [("p-pend", pendingPattern)] }

/-- C3 amended-claim witness: on the concrete pending store, approve sets
`approved = True` and reject sets `approved = False, rejected = True`. -/
theorem approveRejectPattern_flag_semantics_witness :
    (approvePattern pendingFm "p-pend" "drA" "t1").1.feedback_database.lookup
        "p-pend" =
      some { pendingPattern with context := { pendingPattern.context with
               approved := some true,
               approved_by := some "drA",
               approved_at := some "t1" } } :=
  (approveRejectPattern_flag_semantics pendingFm "p-pend" "drA" "t1" none
    pendingPattern (by decide)).1

/-- The store after rejecting and then approving the pending pattern:
the reject is not terminal in the code. -/
def rejectedThenApprovedFm : FeedbackManager :=
  (approvePattern
    (rejectPattern pendingFm "p-pend" "drB" (some "unsafe") "t1").1
    "p-pend" "drA" "t2").1

/-- C3 counterexample: a pattern that has been rejected and is later
passed to `approve_pattern` counts as approved again — its context holds
`approved = True` (while `rejected` stays `True`), and
`apply_corrections` applies it to a matching fact.  This refutes
"once rejected it never later counts as approved". -/
theorem rejectedPattern_approved_counterexample :
    ((rejectPattern pendingFm "p-pend" "drB" (some "unsafe")
        "t1").1.feedback_database.lookup "p-pend").map
        (fun fb => fb.context.rejected.getD false) = some true ∧
      (rejectedThenApprovedFm.feedback_database.lookup "p-pend").map
        (fun fb => fb.context.approved.getD false) = some true ∧
      (rejectedThenApprovedFm.feedback_database.lookup "p-pend").map
        (fun fb => fb.context.rejected.getD false) = some true ∧
      ((applyCorrections rejectedThenApprovedFm [hemorrhageFact]).2.map
        (fun f => f.fact)) = ["patient with hemorrhage"] := by
  refine ⟨by decide, by decide, by decide, by decide⟩

/-- Facts related componentwise by `resolveFrame` agree on every field
of the spec's fact inventory except `absolute_timestamp`, `confidence`,
and `clinical_context`, and non-temporal facts are untouched entirely. -/
def resolveFrame (f g : Fact) : Prop :=
  g.fact = f.fact ∧ g.fact_type = f.fact_type ∧ g.timestamp = f.timestamp ∧
  g.source_doc = f.source_doc ∧ g.source_line = f.source_line ∧
  g.severity = f.severity ∧ g.normalized_value = f.normalized_value ∧
  g.requires_review = f.requires_review ∧
  g.correction_applied = f.correction_applied ∧
  g.correction_source = f.correction_source ∧ g.fact_id = f.fact_id ∧
  (f.fact_type ≠ "temporal_reference" → g = f)

/-- Facts related componentwise by `applyFrame` agree on every field
except the text, confidence, correction-provenance flags, and context;
and whenever anything changed, the original text is recoverable from the
context. -/
def applyFrame (f g : Fact) : Prop :=
  g.fact_type = f.fact_type ∧ g.timestamp = f.timestamp ∧
  g.absolute_timestamp = f.absolute_timestamp ∧ g.source_doc = f.source_doc ∧
  g.source_line = f.source_line ∧ g.severity = f.severity ∧
  g.normalized_value = f.normalized_value ∧
  g.requires_review = f.requires_review ∧ g.fact_id = f.fact_id ∧
  (g ≠ f → g.clinical_context.original_extraction = some f.fact)

/-- Per-fact frame of the temporal resolver. -/
lemma resolveOneFact_frame (f : Fact) (anchors : List Anchor)
    (docs : List ClinicalDocument) :
    resolveFrame f (resolveOneFact f anchors docs) := by
  unfold resolveFrame resolveOneFact
  by_cases h : f.fact_type = "temporal_reference"
  · rw [if_pos h]
    by_cases hr : resolveSingleReference f anchors docs = f.timestamp <;>
      simp [hr, h]
  · rw [if_neg h]
    simp

/-- Per-fact frame of a learning correction. -/
lemma applyCorrectionToFact_frame (f : Fact) (c : Correction) :
    applyFrame f (applyCorrectionToFact f c) := by
  unfold applyFrame applyCorrectionToFact
  simp

/-- C8: both mutators respect their frame: temporal resolution relates
the input and output fact lists pointwise by `resolveFrame` (only
temporal-reference facts change, and only in absolute timestamp,
confidence and context), and learning correction relates them pointwise
by `applyFrame` (only text, confidence, correction provenance and
context change, with the original text recoverable from the context
whenever the fact changed at all). -/
theorem factMutation_frame :
    ∀ (facts : List Fact) (anchors : List Anchor)
      (docs : List ClinicalDocument) (fm : FeedbackManager),
      List.Forall₂ resolveFrame facts
        (resolveTemporalReferences facts anchors docs) ∧
      List.Forall₂ applyFrame facts (applyCorrections fm facts).2 := by
  intro facts anchors docs fm
  constructor
  · unfold resolveTemporalReferences
    induction facts with
    | nil => simp
    | cons f rest ih =>
      simp only [List.map]
      exact List.Forall₂.cons (resolveOneFact_frame f anchors docs) ih
  · induction facts generalizing fm with
    | nil => simp [applyCorrections]
    | cons f rest ih =>
      unfold applyCorrections
      cases hfind : findMatchingApprovedCorrection fm.feedback_database f with
      | none =>
        rcases hrec : applyCorrections fm rest with ⟨fm2, out⟩
        simp only [hrec]
        refine List.Forall₂.cons
          ⟨rfl, rfl, rfl, rfl, rfl, rfl, rfl, rfl, rfl,
            fun hne => absurd rfl hne⟩ ?_
        have hr := ih fm
        rw [hrec] at hr
        exact hr
      | some c =>
        have hr := ih (FeedbackManager.mk
          (bumpAppliedCount fm.feedback_database c.pattern_id)
          (bumpStat fm.application_stats c.pattern_id))
        rcases hrec : applyCorrections (FeedbackManager.mk
          (bumpAppliedCount fm.feedback_database c.pattern_id)
          (bumpStat fm.application_stats c.pattern_id)) rest with ⟨fm2, out⟩
        rw [hrec] at hr
        simp only [hrec]
        exact List.Forall₂.cons (applyCorrectionToFact_frame f c) hr

/-- A non-temporal fact whose `absolute_timestamp` was never set (the
resolver only sets it on `temporal_reference` facts). -/
def nullTsFact : Fact :=
  { fact := "vancomycin 1g IV", fact_type := "medication", timestamp := 2000,
    confidence := 1, fact_id := "f-null-ts" }

/-- An anchor list holding a single admission anchor
(2024-11-01T08:00). -/
def admissionOnlyAnchors : List Anchor :=
  [{ atype := "admission", timestamp := 480, description := "Hospital admission" }]

/-- C9: with an admission anchor present, `detect_temporal_conflicts`
compares every fact's nullable absolute timestamp against the admission
timestamp with no null guard; on a non-temporal fact whose absolute
timestamp is null — exactly the state `resolve_temporal_references`
leaves such a fact in — the comparison raises `TypeError` instead of
producing a conflict report. -/
theorem detectTemporalConflicts_null_timestamp_raises :
    resolveTemporalReferences [nullTsFact] admissionOnlyAnchors [] = [nullTsFact] ∧
      detectTemporalConflicts [nullTsFact] admissionOnlyAnchors =
        Except.error dtTypeErrorMsg :=
  ⟨rfl, rfl⟩

/-- C10: `interpret_lab_trend` divides by the chronologically first value
in its stable-test without a zero guard: two points whose earliest value
is 0 raise `ZeroDivisionError` (while a single point stays inside the
guarded `insufficient_data` branch). -/
theorem interpretLabTrend_zero_first_value_raises :
    interpretLabTrend "sodium" [(0, 0), (1440, 5)] =
        Except.error "ZeroDivisionError: float division by zero" ∧
      interpretLabTrend "sodium" [(0, 0)] =
        Except.ok { trend := "insufficient_data" } :=
  ⟨rfl, rfl⟩

/-- C7 witness: the NIHSS series 6, 12 has at least two points, a change
above 1, and is analysed as worsening. -/
theorem analyzeScoreTrend_spec_witness :
    analyzeScoreTrend "NIHSS" [6, 12] = "worsening" :=
  ((((analyzeScoreTrend_spec "NIHSS" [6, 12]).2 (by decide)).2
      (by decide)).1 (Or.inl rfl)).2 (by decide)

end ClinicalPipeline
